import Mathlib

/-!
Verification of the voice-chat backend's core logic: the upload-staging
utilities (`api/utils/audio.py`), the two-stage transcription resolver
(`api/services/transcribe.py`), the chat service (`api/services/chat.py`),
and the view composition (`api/views.py`).

Effectful Python code is embedded by passing explicit environments:
the remote transcription call, the SpeechRecognition recognizers, the
filesystem, and the chat-completion call are oracles returning
`Except String _` values, where `Except.error msg` stands for a raised
Python exception carrying message `msg`.  A function that in Python
"never raises" is embedded with a plain (non-`Except`) return type,
and catching an exception corresponds to matching on `Except.error`.
-/

namespace VoiceChat

/-- Python's `str.strip()`: drop leading and trailing whitespace.  Defined
structurally over the character list so that it evaluates by `decide`/`rfl`
(Lean's `String.trim` does not reduce definitionally). -/
def pyStrip (s : String) : String :=
  String.mk
    (((s.data.dropWhile Char.isWhitespace).reverse.dropWhile
        Char.isWhitespace).reverse)

/-! ### api/utils/audio.py -/

/-- The fixed MIME-to-extension lookup table of `_guess_extension_from_mime`. -/
def mimeMapping : List (String × String) :=
  [("audio/wav", ".wav"),
   ("audio/x-wav", ".wav"),
   ("audio/mpeg", ".mp3"),
   ("audio/mp3", ".mp3")]

/-- `_guess_extension_from_mime(mime)`: `mapping.get(mime or "", ".bin")`.
A `none` MIME (Python `None`) is replaced by `""` before lookup. -/
def guess_extension_from_mime (mime : Option String) : String :=
  (mimeMapping.lookup (mime.getD "")).getD ".bin"

/-- The filesystem state visible to `safe_unlink`: which paths exist, and
whether `os.remove` raises on a given path (`some msg` = raises with `msg`). -/
structure FS where
  files : List String
  removeFails : String → Option String

/-- `os.path.exists(path)` over the embedded filesystem. -/
def os_path_exists (fs : FS) (p : String) : Bool :=
  fs.files.contains p

/-- `os.remove(path)`: either raises (per `removeFails`) or deletes the path. -/
def os_remove (fs : FS) (p : String) : Except String FS :=
  match fs.removeFails p with
  | some e => .error e
  | none => .ok { fs with files := fs.files.erase p }

/-- `safe_unlink(path)`: returns for `None` or falsy (empty) paths without
touching the filesystem; otherwise removes the path if it exists, swallowing
any exception from `os.remove`.  The plain `FS` return type embeds the fact
that the function never raises. -/
def safe_unlink (fs : FS) (path : Option String) : FS :=
  match path with
  | none => fs
  | some p =>
    if p.isEmpty then fs
    else if os_path_exists fs p then
      match os_remove fs p with
      | .ok fs2 => fs2
      | .error _ => fs
    else fs

/-! ### api/services/transcribe.py: response-shape model

The OpenAI SDK response is dynamically shaped; `_transcribe_with_openai`
probes it with `getattr` / `isinstance` / `hasattr`.  We model exactly the
observations the code makes. -/

/-- The Python value bound to the `data` attribute of the response, when
present: either a dict (whose `"text"` entry may be present), or a non-dict
value with a given truthiness and `str` rendering. -/
inductive DataVal where
  | dict (textKey : Option String)
  | nonDict (truthy : Bool) (repr : String)
deriving DecidableEq

/-- The observable shape of a remote transcription response:
`textAttr` is `getattr(resp, "text", "")`, `dataAttr` is
`getattr(resp, "data", None)`, `toDictText` is `some tk` when
`hasattr(resp, "to_dict")` with `tk` the dict's `"text"` entry, and
`strRepr` is `str(resp)`. -/
structure RemoteResp where
  textAttr : String
  dataAttr : Option DataVal
  toDictText : Option (Option String)
  strRepr : String
deriving DecidableEq

/-- The dynamic value of the local variable `text` during extraction. -/
inductive PyTextVal where
  | pstr (s : String)
  | pdata (d : DataVal)
  | pnone
deriving DecidableEq

/-- Python truthiness of the `text` variable (`if not text`). A dict is
truthy iff non-empty; the dict case is unreachable here because the code
converts dicts to strings first, and we model an arbitrary dict as truthy. -/
def pyTruthy : PyTextVal → Bool
  | .pstr s => !s.isEmpty
  | .pnone => false
  | .pdata (.dict _) => true
  | .pdata (.nonDict truthy _) => truthy

/-- `str(text)` for the values `text` can hold at the end of extraction. -/
def pyToString : PyTextVal → String
  | .pstr s => s
  | .pnone => "None"
  | .pdata (.dict _) => "<dict>"
  | .pdata (.nonDict _ r) => r

/-- The extraction block of `_transcribe_with_openai` (lines 44-53):
`text = getattr(resp, "text", "") or getattr(resp, "data", None)`;
dicts are flattened to their `"text"` entry; a falsy value falls through
to `to_dict().get("text", "")` if available, then to `str(resp)`; the
result is `str(text).strip()`. -/
def extract_text (resp : RemoteResp) : String :=
  let t0 : PyTextVal :=
    if resp.textAttr.isEmpty then
      match resp.dataAttr with
      | none => .pnone
      | some d => .pdata d
    else .pstr resp.textAttr
  let t1 : PyTextVal :=
    match t0 with
    | .pdata (.dict tk) => .pstr (tk.getD "")
    | x => x
  let t2 : PyTextVal :=
    if !pyTruthy t1 then
      match resp.toDictText with
      | some tk => .pstr (tk.getD "")
      | none => t1
    else t1
  let t3 : PyTextVal :=
    if !pyTruthy t2 then .pstr resp.strRepr else t2
  pyStrip (pyToString t3)

/-- The extraction order as the spec words it, for refinement comparison:
try the `text` attribute, then the nested `data` structure's `text` key,
then the `text` key of the generic dict conversion; the first non-empty
candidate wins, `str(resp)` is the last resort, and the result is trimmed. -/
def extract_text_spec (resp : RemoteResp) : String :=
  let candidates : List String :=
    [resp.textAttr,
     (match resp.dataAttr with
      | some (.dict tk) => tk.getD ""
      | _ => ""),
     (match resp.toDictText with
      | some tk => tk.getD ""
      | none => "")]
  pyStrip ((candidates.find? (fun s => !s.isEmpty)).getD resp.strRepr)

/-- Responses whose `data` attribute, when present, is a dict (the shape
the spec's extraction description presupposes). -/
def dataIsDict : Option DataVal → Bool
  | none => true
  | some (.dict _) => true
  | some (.nonDict _ _) => false

/-! ### api/services/transcribe.py: the resolver -/

/-- The Django settings fields the transcription service reads.
`none` models an unset `OPENAI_API_KEY` (the `getattr` default `""`). -/
structure Settings where
  OPENAI_API_KEY : Option String

/-- The runtime environment of the transcription service: settings, which
optional libraries imported successfully, and the effectful calls as
oracles indexed by file path.  `remoteCall` covers opening the file and
calling the remote API (either may raise); `readAudio` is
`recognizer.record(sr.AudioFile(path))`; the two recognizers consume the
audio read from the path, so they are indexed by the path as well. -/
structure Env where
  settings : Settings
  openaiAvailable : Bool
  srAvailable : Bool
  remoteCall : String → Except String RemoteResp
  readAudio : String → Except String Unit
  recognize_sphinx : String → Except String String
  recognize_google : String → Except String String

/-- `getattr(settings, "OPENAI_API_KEY", "").strip()`. -/
def getKey (env : Env) : String :=
  pyStrip (env.settings.OPENAI_API_KEY.getD "")

/-- `_openai_client() is not None`: a non-empty trimmed key and an
importable SDK. -/
def openai_client_configured (env : Env) : Bool :=
  !(getKey env).isEmpty && env.openaiAvailable

/-- `_transcribe_with_openai(file_path)`: fails fast when the client is
unconfigured; otherwise the whole call is inside `try/except`, so a raise
becomes `(False, "OpenAI transcription failed: <ex>")` and a response is
reduced to `(True, extract_text resp)`. -/
def transcribe_with_openai (env : Env) (file_path : String) : Bool × String :=
  if !openai_client_configured env then
    (false, "OpenAI is not configured.")
  else
    match env.remoteCall file_path with
    | .error ex => (false, "OpenAI transcription failed: " ++ ex)
    | .ok resp => (true, extract_text resp)

/-- `_transcribe_with_speech_recognition(file_path)`: unavailable library,
unreadable audio, then Sphinx (errors silently ignored), then Google
(errors become the failure message). -/
def transcribe_with_speech_recognition (env : Env) (file_path : String) :
    Bool × String :=
  if !env.srAvailable then
    (false, "SpeechRecognition is not available.")
  else
    match env.readAudio file_path with
    | .error ex => (false, "Could not read audio file: " ++ ex)
    | .ok _ =>
      match env.recognize_sphinx file_path with
      | .ok t => (true, t)
      | .error _ =>
        match env.recognize_google file_path with
        | .ok t => (true, t)
        | .error ex => (false, "SpeechRecognition failed: " ++ ex)

/-- The tail of `transcribe_audio` (lines 105-111): run the fallback and
consolidate, substituting `"Transcription failed."` for an empty message
(Python `text or "Transcription failed."`). -/
def fallback_stage (env : Env) (file_path : String) : Bool × String :=
  let f := transcribe_with_speech_recognition env file_path
  if f.1 then (true, f.2)
  else (false, if f.2.isEmpty then "Transcription failed." else f.2)

/-- `transcribe_audio(file_path)`: OpenAI first when the trimmed key is
non-empty, returning immediately on success; otherwise the fallback stage. -/
def transcribe_audio (env : Env) (file_path : String) : Bool × String :=
  if !(getKey env).isEmpty then
    let r := transcribe_with_openai env file_path
    if r.1 then (true, r.2) else fallback_stage env file_path
  else fallback_stage env file_path

/-- Invocation counts of the two stage functions during one
`transcribe_audio` call. -/
structure Trace where
  remoteCalls : Nat
  fallbackCalls : Nat
deriving DecidableEq

/-- `transcribe_audio` instrumented with stage invocation counts:
identical control flow, recording how many times `_transcribe_with_openai`
and `_transcribe_with_speech_recognition` are entered. -/
def transcribe_audio_t (env : Env) (file_path : String) :
    (Bool × String) × Trace :=
  if !(getKey env).isEmpty then
    let r := transcribe_with_openai env file_path
    if r.1 then ((true, r.2), ⟨1, 0⟩)
    else (fallback_stage env file_path, ⟨1, 1⟩)
  else (fallback_stage env file_path, ⟨0, 1⟩)

/-! ### api/services/chat.py -/

/-- The chat-completion response: the `content` of each choice's message
(`none` when the `content` attribute is absent, the `getattr` default). -/
structure ChatResp where
  choices : List (Option String)
deriving DecidableEq

/-- The chat service environment: SDK availability, the (optionally set)
`OPENAI_API_KEY`, and the chat-completion call as an oracle taking the
user message and the optional system context. -/
structure ChatEnv where
  openaiAvailable : Bool
  apiKey : Option String
  chatCompletion : String → String → Except String ChatResp

/-- `settings.OPENAI_API_KEY.strip() if hasattr(...) else ""`. -/
def chatKey (cenv : ChatEnv) : String :=
  pyStrip (cenv.apiKey.getD "")

/-- `send_chat(message, context)`: the canned not-configured reply costs no
network call; otherwise one chat-completion call is made with no local
`try`, so its exception propagates (`Except.error`), and on success the
first choice's content (or `""`) is returned.  The `Nat` counts network
calls. -/
def send_chat (cenv : ChatEnv) (message context : String) :
    Except String String × Nat :=
  if chatKey cenv |>.isEmpty then
    (.ok "OpenAI is not configured. Please set OPENAI_API_KEY to enable chat replies.", 0)
  else if !cenv.openaiAvailable then
    (.ok "OpenAI is not configured. Please set OPENAI_API_KEY to enable chat replies.", 0)
  else
    match cenv.chatCompletion message context with
    | .error ex => (.error ex, 1)
    | .ok resp =>
      match resp.choices with
      | [] => (.ok "", 1)
      | c :: _ => (.ok (c.getD ""), 1)

/-! ### api/views.py (post-validation cores) -/

/-- The JSON body a view responds with, validation errors aside. -/
inductive ViewResult where
  | ok (reply : String)
  | err (msg : String)
deriving DecidableEq

/-- `chat_view` after successful validation: `send_chat` inside
`try/except`, so an exception becomes `{ok: False, error: str(ex)}`.
The `Nat` counts chat network calls. -/
def chat_view_core (cenv : ChatEnv) (message context : String) :
    ViewResult × Nat :=
  match send_chat cenv message context with
  | (.ok reply, n) => (.ok reply, n)
  | (.error ex, n) => (.err ex, n)

/-- The voice-chat response body. -/
inductive VCResult where
  | okr (transcript reply : String)
  | err (msg : String)
deriving DecidableEq

/-- `voice_chat_view` after validation and staging (lines 146-159):
transcribe; on failure report the error; strip the transcript and report
`"Transcript is empty."` when blank; otherwise call `send_chat` with the
transcript and empty context.  `send_chat` is not wrapped in a local
`except`, so its exception escapes the view (`Except.error`).  The `Nat`
counts `send_chat` invocations. -/
def voice_chat_core (env : Env) (cenv : ChatEnv) (file_path : String) :
    Except String VCResult × Nat :=
  let r := transcribe_audio env file_path
  if !r.1 then (.ok (.err r.2), 0)
  else
    let transcript := pyStrip r.2
    if transcript.isEmpty then (.ok (.err "Transcript is empty."), 0)
    else
      match send_chat cenv transcript "" with
      | (.ok reply, _) => (.ok (.okr transcript reply), 1)
      | (.error ex, _) => (.error ex, 1)

/-! ### Concrete fixtures used by the witness theorems -/

/-- A filesystem with one file whose deletion raises. -/
def fsEx : FS :=
  ⟨["locked.wav"], fun p => if p = "locked.wav" then some "Permission denied" else none⟩

/-- A remote response exposing a plain `text` attribute. -/
def respHello : RemoteResp := ⟨"hello world", none, none, "resp-object"⟩

/-- A remote response whose text sits under the `data` dict. -/
def respData : RemoteResp := ⟨"", some (.dict (some "from data")), none, "resp-object"⟩

/-- No key, no OpenAI SDK; SpeechRecognition present, Sphinx raising and
Google succeeding. -/
def envNoKey : Env :=
  { settings := ⟨none⟩
    openaiAvailable := false
    srAvailable := true
    remoteCall := fun _ => .error "unreachable"
    readAudio := fun _ => .ok ()
    recognize_sphinx := fun _ => .error "sphinx missing"
    recognize_google := fun _ => .ok "test phrase" }

/-- Key configured and the remote call succeeding. -/
def envRemoteOK : Env :=
  { settings := ⟨some "sk-test"⟩
    openaiAvailable := true
    srAvailable := true
    remoteCall := fun _ => .ok respHello
    readAudio := fun _ => .ok ()
    recognize_sphinx := fun _ => .error "sphinx missing"
    recognize_google := fun _ => .ok "should not be used" }

/-- Key configured but the remote call raising, and both recognizers
raising as well. -/
def envBothFail : Env :=
  { settings := ⟨some "sk-test"⟩
    openaiAvailable := true
    srAvailable := true
    remoteCall := fun _ => .error "boom"
    readAudio := fun _ => .ok ()
    recognize_sphinx := fun _ => .error "sphinx missing"
    recognize_google := fun _ => .error "net down" }

/-- Nothing configured: no key, no SDK, no SpeechRecognition library. -/
def envNothing : Env :=
  { settings := ⟨none⟩
    openaiAvailable := false
    srAvailable := false
    remoteCall := fun _ => .error "unreachable"
    readAudio := fun _ => .error "unreachable"
    recognize_sphinx := fun _ => .error "unreachable"
    recognize_google := fun _ => .error "unreachable" }

/-- No key; the fallback succeeds but with a whitespace-only transcript. -/
def envBlank : Env :=
  { settings := ⟨none⟩
    openaiAvailable := false
    srAvailable := true
    remoteCall := fun _ => .error "unreachable"
    readAudio := fun _ => .ok ()
    recognize_sphinx := fun _ => .ok "   "
    recognize_google := fun _ => .error "unreachable" }

/-- A chat environment whose key is whitespace-only (unconfigured after
trimming) even though the SDK imported fine. -/
def cenvWs : ChatEnv :=
  ⟨true, some "   ", fun _ _ => .error "unreachable"⟩

/-! ### Theorems -/

/-- The instrumented resolver computes the same result as the plain one. -/
theorem transcribe_audio_t_fst (env : Env) (file_path : String) :
    (transcribe_audio_t env file_path).1 = transcribe_audio env file_path := by
  unfold transcribe_audio_t transcribe_audio
  by_cases h : (getKey env).isEmpty
  · simp [h]
  · simp [h]
    split <;> rfl

/-- C8: `audio/wav` and `audio/x-wav` map to `.wav`, `audio/mpeg` and
`audio/mp3` map to `.mp3`, and every other declared content type,
including a missing/None one, maps to the fallback `.bin`. -/
theorem guess_extension_table (m : String)
    (hm : m ∉ ["audio/wav", "audio/x-wav", "audio/mpeg", "audio/mp3"]) :
    guess_extension_from_mime (some "audio/wav") = ".wav" ∧
    guess_extension_from_mime (some "audio/x-wav") = ".wav" ∧
    guess_extension_from_mime (some "audio/mpeg") = ".mp3" ∧
    guess_extension_from_mime (some "audio/mp3") = ".mp3" ∧
    guess_extension_from_mime none = ".bin" ∧
    guess_extension_from_mime (some m) = ".bin" := by
  simp only [List.mem_cons, List.not_mem_nil, or_false, not_or] at hm
  obtain ⟨h1, h2, h3, h4⟩ := hm
  refine ⟨rfl, rfl, rfl, rfl, rfl, ?_⟩
  have e1 : (m == "audio/wav") = false := beq_eq_false_iff_ne.mpr h1
  have e2 : (m == "audio/x-wav") = false := beq_eq_false_iff_ne.mpr h2
  have e3 : (m == "audio/mpeg") = false := beq_eq_false_iff_ne.mpr h3
  have e4 : (m == "audio/mp3") = false := beq_eq_false_iff_ne.mpr h4
  simp [guess_extension_from_mime, mimeMapping, List.lookup, e1, e2, e3, e4]

/-- Witness for C8: an unrecognized content type falls back to `.bin`. -/
theorem guess_extension_table_witness :
    guess_extension_from_mime (some "text/plain") = ".bin" :=
  (guess_extension_table "text/plain" (by decide)).2.2.2.2.2

/-- C9: `safe_unlink` never raises: its return type is a plain filesystem
state; a `None` or empty path is a no-op, a nonexistent path leaves the
filesystem unchanged, and a raising `os.remove` is swallowed, again
leaving the filesystem unchanged. -/
theorem safe_unlink_total_noop (fs : FS) :
    safe_unlink fs none = fs ∧
    safe_unlink fs (some "") = fs ∧
    (∀ p, os_path_exists fs p = false → safe_unlink fs (some p) = fs) ∧
    (∀ p e, fs.removeFails p = some e → safe_unlink fs (some p) = fs) := by
  refine ⟨rfl, rfl, ?_, ?_⟩
  · intro p hp
    unfold safe_unlink
    by_cases hpe : p.isEmpty <;> simp [hpe, hp]
  · intro p e he
    unfold safe_unlink
    by_cases hpe : p.isEmpty
    · simp [hpe]
    · by_cases hex : os_path_exists fs p <;> simp [hpe, hex, os_remove, he]

/-- Witness for C9 on a concrete filesystem: null path, empty path,
missing file, and a file whose deletion raises. -/
theorem safe_unlink_total_noop_witness :
    safe_unlink fsEx none = fsEx ∧ safe_unlink fsEx (some "") = fsEx ∧
    safe_unlink fsEx (some "ghost.wav") = fsEx ∧
    safe_unlink fsEx (some "locked.wav") = fsEx := by
  have h := safe_unlink_total_noop fsEx
  exact ⟨h.1, h.2.1, h.2.2.1 "ghost.wav" (by decide),
         h.2.2.2 "locked.wav" "Permission denied" (by simp [fsEx])⟩

/-- C1: when the remote attempt reports ok=true, `transcribe_audio`
returns that success unchanged and the SpeechRecognition fallback is
never invoked (its invocation count is zero). -/
theorem remote_success_short_circuits (env : Env) (p : String)
    (h : (transcribe_with_openai env p).1 = true) :
    transcribe_audio env p = (true, (transcribe_with_openai env p).2) ∧
    ((transcribe_audio_t env p).2).fallbackCalls = 0 := by
  have hc : openai_client_configured env = true := by
    by_cases hc : openai_client_configured env
    · exact hc
    · simp [transcribe_with_openai, hc] at h
  have hk : (getKey env).isEmpty = false := by
    unfold openai_client_configured at hc
    cases hkk : (getKey env).isEmpty
    · rfl
    · simp [hkk] at hc
  constructor
  · simp [transcribe_audio, hk, h]
  · simp [transcribe_audio_t, hk, h]

/-- Witness for C1: a configured remote call returning a response with a
`text` attribute short-circuits the resolver. -/
theorem remote_success_short_circuits_witness :
    transcribe_audio envRemoteOK "a.wav" = (true, "hello world") ∧
    ((transcribe_audio_t envRemoteOK "a.wav").2).fallbackCalls = 0 := by
  have h := remote_success_short_circuits envRemoteOK "a.wav" (by decide)
  refine ⟨?_, h.2⟩
  rw [h.1]
  decide

/-- C2: with an empty or unset (whitespace-trimmed) `OPENAI_API_KEY`, the
remote stage is never entered (invocation count zero) and
`transcribe_audio` is exactly the fallback stage. -/
theorem unconfigured_goes_direct_to_fallback (env : Env) (p : String)
    (h : (getKey env).isEmpty = true) :
    ((transcribe_audio_t env p).2).remoteCalls = 0 ∧
    transcribe_audio env p = fallback_stage env p := by
  constructor
  · simp [transcribe_audio_t, h]
  · simp [transcribe_audio, h]

/-- Witness for C2 at an environment with an unset key. -/
theorem unconfigured_goes_direct_to_fallback_witness :
    ((transcribe_audio_t envNoKey "a.wav").2).remoteCalls = 0 ∧
    transcribe_audio envNoKey "a.wav" = fallback_stage envNoKey "a.wav" :=
  unconfigured_goes_direct_to_fallback envNoKey "a.wav" (by decide)

/-- C3: when the remote stage reports failure and the fallback stage
reports failure, `transcribe_audio` returns false with the fallback's
(last) error message, or `"Transcription failed."` when that message is
empty; in particular, with no key and no SpeechRecognition library the
result is `(false, "SpeechRecognition is not available.")`. -/
theorem both_stages_fail_consolidated (env : Env) (p : String)
    (h1 : (transcribe_with_openai env p).1 = false)
    (h2 : (transcribe_with_speech_recognition env p).1 = false) :
    transcribe_audio env p =
      (false,
        if (transcribe_with_speech_recognition env p).2.isEmpty
        then "Transcription failed."
        else (transcribe_with_speech_recognition env p).2) ∧
    ((getKey env).isEmpty = true → env.srAvailable = false →
      transcribe_audio env p = (false, "SpeechRecognition is not available.")) := by
  constructor
  · unfold transcribe_audio fallback_stage
    by_cases hk : (getKey env).isEmpty <;> simp [hk, h1, h2]
  · intro hk hsr
    simp [transcribe_audio, hk, fallback_stage,
      transcribe_with_speech_recognition, hsr]
    decide

/-- Witness for C3: a raising remote call plus raising recognizers yield
the last (Google) error; an entirely unconfigured runtime yields the
library-missing message. -/
theorem both_stages_fail_consolidated_witness :
    transcribe_audio envBothFail "a.wav" =
      (false, "SpeechRecognition failed: net down") ∧
    transcribe_audio envNothing "a.wav" =
      (false, "SpeechRecognition is not available.") := by
  have hA :=
    (both_stages_fail_consolidated envBothFail "a.wav" (by decide) (by decide)).1
  have hB :=
    (both_stages_fail_consolidated envNothing "a.wav" (by decide) (by decide)).2
      (by decide) (by decide)
  refine ⟨?_, hB⟩
  rw [hA]
  decide

/-- C4: once the audio is read, Sphinx is tried first and its success is
returned as-is; a Sphinx exception is silently discarded and Google is
tried; a Google success is returned as-is; a Google exception becomes
`(false, "SpeechRecognition failed: <detail>")`. -/
theorem sr_fallback_order (env : Env) (p : String)
    (hsr : env.srAvailable = true) (hread : env.readAudio p = .ok ()) :
    (∀ t, env.recognize_sphinx p = .ok t →
      transcribe_with_speech_recognition env p = (true, t)) ∧
    (∀ e t, env.recognize_sphinx p = .error e → env.recognize_google p = .ok t →
      transcribe_with_speech_recognition env p = (true, t)) ∧
    (∀ e e2, env.recognize_sphinx p = .error e →
      env.recognize_google p = .error e2 →
      transcribe_with_speech_recognition env p =
        (false, "SpeechRecognition failed: " ++ e2)) := by
  unfold transcribe_with_speech_recognition
  refine ⟨?_, ?_, ?_⟩ <;> intros <;> simp_all

/-- Witness for C4: Sphinx raising and Google succeeding produces the
Google transcript (end-to-end scenario 2 of the spec). -/
theorem sr_fallback_order_witness :
    transcribe_with_speech_recognition envNoKey "a.wav" = (true, "test phrase") :=
  (sr_fallback_order envNoKey "a.wav" rfl rfl).2.1 "sphinx missing" "test phrase"
    rfl rfl

/-- C5: with a configured client, a raised exception in the remote call is
caught and converted to `(false, "OpenAI transcription failed: <detail>")`,
and the resolver then proceeds to the fallback stage rather than
propagating anything: both embedded functions are total with plain result
types, so no exception escapes the resolver boundary. -/
theorem remote_exception_becomes_failure (env : Env) (p : String) (ex : String)
    (hc : openai_client_configured env = true)
    (h : env.remoteCall p = .error ex) :
    transcribe_with_openai env p =
      (false, "OpenAI transcription failed: " ++ ex) ∧
    transcribe_audio env p = fallback_stage env p := by
  have hres : transcribe_with_openai env p =
      (false, "OpenAI transcription failed: " ++ ex) := by
    simp [transcribe_with_openai, hc, h]
  have hk : (getKey env).isEmpty = false := by
    unfold openai_client_configured at hc
    cases hkk : (getKey env).isEmpty
    · rfl
    · simp [hkk] at hc
  exact ⟨hres, by simp [transcribe_audio, hk, hres]⟩

/-- Witness for C5: the raising remote call of `envBothFail` is converted
to a failure result and the resolver continues with the fallback stage. -/
theorem remote_exception_becomes_failure_witness :
    transcribe_with_openai envBothFail "a.wav" =
      (false, "OpenAI transcription failed: boom") ∧
    transcribe_audio envBothFail "a.wav" = fallback_stage envBothFail "a.wav" :=
  remote_exception_becomes_failure envBothFail "a.wav" "boom" (by decide) rfl

/-- C6: for every response whose `data` attribute, when present, is a
dict, the code's extraction coincides with the spec's ordered strategy:
`text` attribute first, then the `data` dict's `text` key, then the
`to_dict()` conversion's `text` key, then the stringified response, the
result trimmed. -/
theorem extract_text_matches_spec (resp : RemoteResp)
    (h : dataIsDict resp.dataAttr = true) :
    extract_text resp = extract_text_spec resp := by
  have e0 : ("" : String).isEmpty = true := by decide
  obtain ⟨ta, da, td, s0⟩ := resp
  unfold extract_text extract_text_spec
  rcases da with _ | d
  · by_cases hta : ta.isEmpty
    · rcases td with _ | tk
      · simp [pyTruthy, pyToString, hta, e0]
      · by_cases htk : (tk.getD "").isEmpty
        · simp [pyTruthy, pyToString, hta, htk, e0]
        · simp [pyTruthy, pyToString, hta, htk, e0]
    · simp [pyTruthy, pyToString, hta]
  · rcases d with ⟨tk⟩ | ⟨t, r⟩
    · by_cases hta : ta.isEmpty
      · by_cases htk : (tk.getD "").isEmpty
        · rcases td with _ | tk2
          · simp [pyTruthy, pyToString, hta, htk, e0]
          · by_cases htk2 : (tk2.getD "").isEmpty
            · simp [pyTruthy, pyToString, hta, htk, htk2, e0]
            · simp [pyTruthy, pyToString, hta, htk, htk2, e0]
        · simp [pyTruthy, pyToString, hta, htk, e0]
      · simp [pyTruthy, pyToString, hta]
    · simp [dataIsDict] at h

/-- Witness for C6: a response carrying its transcript only under the
`data` dict is extracted as the spec describes. -/
theorem extract_text_matches_spec_witness :
    extract_text respData = extract_text_spec respData ∧
    extract_text respData = "from data" :=
  ⟨extract_text_matches_spec respData (by decide), by decide⟩

/-- C7: when transcription succeeds but the transcript is blank after
stripping, the voice-chat view responds with the distinct
`"Transcript is empty."` error and never invokes `send_chat`. -/
theorem empty_transcript_skips_chat (env : Env) (cenv : ChatEnv) (p : String)
    (hok : (transcribe_audio env p).1 = true)
    (hemp : (pyStrip (transcribe_audio env p).2).isEmpty = true) :
    voice_chat_core env cenv p = (.ok (.err "Transcript is empty."), 0) := by
  unfold voice_chat_core
  simp [hok, hemp]

/-- Witness for C7: a fallback transcript of spaces only triggers the
empty-transcript failure with zero chat invocations. -/
theorem empty_transcript_skips_chat_witness :
    voice_chat_core envBlank cenvWs "a.wav" =
      (.ok (.err "Transcript is empty."), 0) :=
  empty_transcript_skips_chat envBlank cenvWs "a.wav" (by decide) (by decide)

/-- C10: with an unset, empty, or whitespace-only `OPENAI_API_KEY`,
`send_chat` makes no network call and returns the fixed not-configured
reply as a normal value (no exception), so the chat view answers ok with
that reply, and the voice-chat view, given a non-blank transcript,
answers ok with the transcript and that reply. -/
theorem unconfigured_chat_canned (cenv : ChatEnv) (message context : String)
    (h : (chatKey cenv).isEmpty = true) :
    send_chat cenv message context =
      (.ok "OpenAI is not configured. Please set OPENAI_API_KEY to enable chat replies.", 0) ∧
    chat_view_core cenv message context =
      (.ok "OpenAI is not configured. Please set OPENAI_API_KEY to enable chat replies.", 0) ∧
    (∀ env p, (transcribe_audio env p).1 = true →
      (pyStrip (transcribe_audio env p).2).isEmpty = false →
      voice_chat_core env cenv p =
        (.ok (.okr (pyStrip (transcribe_audio env p).2)
          "OpenAI is not configured. Please set OPENAI_API_KEY to enable chat replies."), 1)) := by
  have hs : ∀ m c, send_chat cenv m c =
      (.ok "OpenAI is not configured. Please set OPENAI_API_KEY to enable chat replies.", 0) :=
    fun m c => by simp [send_chat, h]
  refine ⟨hs message context, ?_, ?_⟩
  · simp [chat_view_core, hs]
  · intro env p hok hne
    unfold voice_chat_core
    simp [hok, hne, hs]

/-- Witness for C10: a whitespace-only key yields the canned reply from
`send_chat`, the chat view, and the voice-chat view. -/
theorem unconfigured_chat_canned_witness :
    send_chat cenvWs "hi" "" =
      (.ok "OpenAI is not configured. Please set OPENAI_API_KEY to enable chat replies.", 0) ∧
    chat_view_core cenvWs "hi" "" =
      (.ok "OpenAI is not configured. Please set OPENAI_API_KEY to enable chat replies.", 0) ∧
    voice_chat_core envNoKey cenvWs "a.wav" =
      (.ok (.okr "test phrase"
        "OpenAI is not configured. Please set OPENAI_API_KEY to enable chat replies."), 1) := by
  have h := unconfigured_chat_canned cenvWs "hi" "" (by decide)
  refine ⟨h.1, h.2.1, ?_⟩
  have h3 := h.2.2 envNoKey "a.wav" (by decide) (by decide)
  rw [h3]
  rfl

end VoiceChat
